import Mathlib

/-!
Verification of the CEM/SSMF model codec library.

This file gives a shallow embedding of the library's binary codec
(`src/lib.rs`, `src/encode.rs`, `src/v2.rs`, `src/v5.rs`, `src/scene.rs`)
and of the bounding-volume engine (`src/collider.rs`), and proves the
testable properties stated in the specification against it.

Modelling conventions:
* A byte stream is a `List Nat` whose elements are byte values.
* Readers have type `List Nat → Except Err (α × List Nat)`: they return the
  decoded value together with the unconsumed suffix, or an error.
* Writers have type `List Nat → Except (Err × List Nat) (List Nat)`: they
  receive the bytes emitted so far and return the extended buffer; a failing
  writer returns the buffer as it stood at the failure, so "no partial
  output" is expressible.
* `u32`/`u16` values are `Nat`s; writing truncates modulo `2^32`/`2^16`
  exactly as the wire format does.  `f32` values are carried as their raw
  little-endian 32-bit patterns (`Nat`), which makes encode/decode of floats
  exact, as it is in the code.
* Rust `String`s are carried as `List Nat` of Unicode code points.
* A Rust `unimplemented!()` panic is modelled as the distinct error value
  `Err.unimplemented`, and an I/O end-of-stream as `Err.eof`.
-/

namespace Cem

/-- Little-endian bytes of a `u16` value (truncating like `as u16`). -/
def u16le (x : Nat) : List Nat := [x % 256, x / 256 % 256]

/-- Little-endian bytes of a `u32` value (truncating like `as u32`). -/
def u32le (x : Nat) : List Nat :=
  [x % 256, x / 256 % 256, x / 65536 % 256, x / 16777216 % 256]

/-- The header structure from `src/lib.rs`: magic number plus revision. -/
structure ModelHeader where
  magic : Nat
  major : Nat
  minor : Nat
deriving DecidableEq

/-- The error outcomes of the codec.  `eof` is a failed read from the
underlying stream, `invalidData` an `io::ErrorKind::InvalidData` error with
its message, `mismatch` the "Wrong model header" error of `Scene::read`
(which formats both the expected and the actual header into its message, so
the embedding carries both values), `unimplemented` a Rust
`unimplemented!()` panic, and `depthLimit` exhaustion of the explicit
recursion budget that the embedding gives to the recursive scene reader. -/
inductive Err where
  | eof
  | invalidData (msg : String)
  | mismatch (expected actual : ModelHeader)
  | unimplemented
  | depthLimit
deriving DecidableEq

/-- Readers: consume a prefix of the stream, return value and suffix. -/
abbrev Rd (α : Type) := List Nat → Except Err (α × List Nat)

/-- Writers: extend the buffer of emitted bytes, or fail keeping it. -/
abbrev Wr := List Nat → Except (Err × List Nat) (List Nat)

/-- Read one byte (`read_u8`). -/
def readU8 : Rd Nat := fun s =>
  match s with
  | [] => .error .eof
  | b :: rest => .ok (b, rest)

/-- Read a little-endian `u16` (`read_u16::<LittleEndian>`). -/
def readU16 : Rd Nat := fun s => do
  let (b0, s) ← readU8 s
  let (b1, s) ← readU8 s
  .ok (b0 + 256 * b1, s)

/-- Read a little-endian `u32` (`read_u32::<LittleEndian>`). -/
def readU32 : Rd Nat := fun s => do
  let (b0, s) ← readU8 s
  let (b1, s) ← readU8 s
  let (b2, s) ← readU8 s
  let (b3, s) ← readU8 s
  .ok (b0 + 256 * b1 + 65536 * b2 + 16777216 * b3, s)

/-- Read a little-endian `f32` as its raw 32-bit pattern. -/
def readF32 : Rd Nat := readU32

/-- Write one byte. -/
def writeU8 (x : Nat) : Wr := fun buf => .ok (buf ++ [x % 256])

/-- Write a little-endian `u16`. -/
def writeU16 (x : Nat) : Wr := fun buf => .ok (buf ++ u16le x)

/-- Write a little-endian `u32`. -/
def writeU32 (x : Nat) : Wr := fun buf => .ok (buf ++ u32le x)

/-- Write a little-endian `f32` given as its raw 32-bit pattern. -/
def writeF32 (x : Nat) : Wr := writeU32 x

/-- Read `n` values with the reader `f`, in stream order (the `for` loops of
the codec that fill a `Vec` with `n` decoded elements). -/
def readN (f : Rd α) : Nat → Rd (List α)
  | 0 => fun s => .ok ([], s)
  | n + 1 => fun s => do
    let (x, s) ← f s
    let (xs, s) ← readN f n s
    .ok (x :: xs, s)

/-- Decode of `ModelHeader::read` from `src/lib.rs`. -/
def ModelHeader.read : Rd ModelHeader := fun s => do
  let (magic, s) ← readU32 s
  let (major, s) ← readU16 s
  let (minor, s) ← readU16 s
  .ok ({ magic, major, minor }, s)

/-- Encode of `ModelHeader::write` from `src/lib.rs`. -/
def ModelHeader.write (h : ModelHeader) : Wr := fun buf => do
  let buf ← writeU32 h.magic buf
  let buf ← writeU16 h.major buf
  writeU16 h.minor buf

/-- The magic FourCC "SSMF" (`MAGIC` in `src/lib.rs`). -/
def MAGIC : Nat := 0x464D5353

/-- The byte-collection loop of `read_string_iso` (`src/lib.rs`, duplicated
as `Cow::read` in `src/encode.rs`): read exactly `n` bytes; once a zero byte
is seen the `ended` flag is set and later bytes are no longer collected, but
they are still consumed from the stream. -/
def readIsoChars : Nat → Bool → Rd (List Nat)
  | 0, _ => fun s => .ok ([], s)
  | n + 1, ended => fun s =>
    match s with
    | [] => .error .eof
    | b :: rest =>
      let ended := ended || b == 0
      match readIsoChars n ended rest with
      | .ok (cs, s) => .ok ((if ended then cs else b :: cs), s)
      | .error e => .error e

/-- Decode of `read_string_iso` (`src/lib.rs`): a `u32` length followed by
exactly that many bytes, of which those before the first zero byte form the
logical string. -/
def readStringIso : Rd (List Nat) := fun s => do
  let (len, s) ← readU32 s
  readIsoChars len false s

/-- Strip all trailing NUL characters (`s.trim_right_matches('\0')`). -/
def trimRightZeros (s : List Nat) : List Nat :=
  (s.reverse.dropWhile (fun c => c == 0)).reverse

/-- The per-character encoding step of `write_string_iso`: the source tests
`char < '\u{256}'` (code point `0x256 = 598`) and casts the character with
`as u8`, which truncates to the low byte; anything not below `U+0256`
becomes `'?'` (63). -/
def isoByte (c : Nat) : Nat := if c < 598 then c % 256 else 63

/-- Encode of `write_string_iso` (`src/lib.rs`, duplicated as `write_str` in
`src/encode.rs`): trim trailing NULs, refuse strings longer than the `u32`
range, then write `u32` length = character count + 1, each character through
`isoByte`, and a terminating zero byte. -/
def writeStringIso (s : List Nat) : Wr := fun buf =>
  let t := trimRightZeros s
  let len := t.length + 1
  if 4294967295 < len then
    .error (.invalidData "Cannot write a string more than 4GB long", buf)
  else
    .ok (buf ++ u32le len ++ t.map isoByte ++ [0])

/-! V2 data model (`src/v2.rs`).  Every numeric field is the `Nat` image of
the `u32` (or raw `f32` bit pattern) the source stores. -/

/-- A 2-component position (`Pos2` in `src/types.rs`), raw `f32` words. -/
structure Pos2 where
  x : Nat
  y : Nat
deriving DecidableEq

/-- A 3-component position (`Pos3` in `src/types.rs`), raw `f32` words. -/
structure Pos3 where
  x : Nat
  y : Nat
  z : Nat
deriving DecidableEq

/-- The 4x4 matrix (`Mat4` in `src/types.rs`): sixteen raw `f32` words, in
the fixed serialization order of the sixteen array slots. -/
structure Mat4 where
  m0 : Nat
  m1 : Nat
  m2 : Nat
  m3 : Nat
  m4 : Nat
  m5 : Nat
  m6 : Nat
  m7 : Nat
  m8 : Nat
  m9 : Nat
  m10 : Nat
  m11 : Nat
  m12 : Nat
  m13 : Nat
  m14 : Nat
  m15 : Nat
deriving DecidableEq

/-- The wire AABB: lower corner then upper corner, three `f32` each. -/
structure WireAabb where
  lower : Pos3
  upper : Pos3
deriving DecidableEq

namespace V2

/-- Expected header for V2: SSMF v2.0 (`EXPECTED_MODEL_HEADER`). -/
def EXPECTED_MODEL_HEADER : ModelHeader := { magic := MAGIC, major := 2, minor := 0 }

/-- The quantities block of `src/v2.rs`: seven `u32` counts. -/
structure Quantities where
  triangles : Nat
  vertices : Nat
  tags : Nat
  materials : Nat
  frames : Nat
  additionalModels : Nat
  lodLevels : Nat
deriving DecidableEq

/-- Decode of `Quantities::read`. -/
def Quantities.read : Rd Quantities := fun s => do
  let (triangles, s) ← readU32 s
  let (vertices, s) ← readU32 s
  let (tags, s) ← readU32 s
  let (materials, s) ← readU32 s
  let (frames, s) ← readU32 s
  let (additionalModels, s) ← readU32 s
  let (lodLevels, s) ← readU32 s
  .ok ({ triangles, vertices, tags, materials, frames, additionalModels, lodLevels }, s)

/-- Encode of `Quantities::write`. -/
def Quantities.write (q : Quantities) : Wr := fun buf => do
  let buf ← writeU32 q.triangles buf
  let buf ← writeU32 q.vertices buf
  let buf ← writeU32 q.tags buf
  let buf ← writeU32 q.materials buf
  let buf ← writeU32 q.frames buf
  let buf ← writeU32 q.additionalModels buf
  writeU32 q.lodLevels buf

/-- An indexed triangle: three `u32` vertex indices. -/
structure Triangle where
  a : Nat
  b : Nat
  c : Nat
deriving DecidableEq

/-- Decode of `Triangle::read`. -/
def Triangle.read : Rd Triangle := fun s => do
  let (a, s) ← readU32 s
  let (b, s) ← readU32 s
  let (c, s) ← readU32 s
  .ok ({ a, b, c }, s)

/-- Encode of `Triangle::write`. -/
def Triangle.write (t : Triangle) : Wr := fun buf => do
  let buf ← writeU32 t.a buf
  let buf ← writeU32 t.b buf
  writeU32 t.c buf

/-- A range of triangles (`TriangleSelection`): offset and length. -/
structure TriangleSelection where
  offset : Nat
  len : Nat
deriving DecidableEq

/-- Decode of `TriangleSelection::read`. -/
def TriangleSelection.read : Rd TriangleSelection := fun s => do
  let (offset, s) ← readU32 s
  let (len, s) ← readU32 s
  .ok ({ offset, len }, s)

/-- Encode of `TriangleSelection::write`. -/
def TriangleSelection.write (t : TriangleSelection) : Wr := fun buf => do
  let buf ← writeU32 t.offset buf
  writeU32 t.len buf

/-- Decode of `Pos2::read` (`src/types.rs`). -/
def Pos2.read : Rd Pos2 := fun s => do
  let (x, s) ← readF32 s
  let (y, s) ← readF32 s
  .ok ({ x, y }, s)

/-- Encode of `Pos2::write`. -/
def Pos2.write (p : Pos2) : Wr := fun buf => do
  let buf ← writeF32 p.x buf
  writeF32 p.y buf

/-- Decode of `Pos3::read` (`src/types.rs`). -/
def Pos3.read : Rd Pos3 := fun s => do
  let (x, s) ← readF32 s
  let (y, s) ← readF32 s
  let (z, s) ← readF32 s
  .ok ({ x, y, z }, s)

/-- Encode of `Pos3::write`. -/
def Pos3.write (p : Pos3) : Wr := fun buf => do
  let buf ← writeF32 p.x buf
  let buf ← writeF32 p.y buf
  writeF32 p.z buf

/-- Decode of `Mat4::read` (`src/types.rs`): sixteen `f32` in order. -/
def Mat4.read : Rd Mat4 := fun s => do
  let (m0, s) ← readF32 s
  let (m1, s) ← readF32 s
  let (m2, s) ← readF32 s
  let (m3, s) ← readF32 s
  let (m4, s) ← readF32 s
  let (m5, s) ← readF32 s
  let (m6, s) ← readF32 s
  let (m7, s) ← readF32 s
  let (m8, s) ← readF32 s
  let (m9, s) ← readF32 s
  let (m10, s) ← readF32 s
  let (m11, s) ← readF32 s
  let (m12, s) ← readF32 s
  let (m13, s) ← readF32 s
  let (m14, s) ← readF32 s
  let (m15, s) ← readF32 s
  .ok ({ m0, m1, m2, m3, m4, m5, m6, m7, m8, m9, m10, m11, m12, m13, m14, m15 }, s)

/-- Encode of `Mat4::write`. -/
def Mat4.write (m : Mat4) : Wr := fun buf => do
  let buf ← writeF32 m.m0 buf
  let buf ← writeF32 m.m1 buf
  let buf ← writeF32 m.m2 buf
  let buf ← writeF32 m.m3 buf
  let buf ← writeF32 m.m4 buf
  let buf ← writeF32 m.m5 buf
  let buf ← writeF32 m.m6 buf
  let buf ← writeF32 m.m7 buf
  let buf ← writeF32 m.m8 buf
  let buf ← writeF32 m.m9 buf
  let buf ← writeF32 m.m10 buf
  let buf ← writeF32 m.m11 buf
  let buf ← writeF32 m.m12 buf
  let buf ← writeF32 m.m13 buf
  let buf ← writeF32 m.m14 buf
  writeF32 m.m15 buf

/-- Decode of the V2 `Aabb::read` (lower corner then upper corner). -/
def WireAabb.read : Rd WireAabb := fun s => do
  let (lower, s) ← Pos3.read s
  let (upper, s) ← Pos3.read s
  .ok ({ lower, upper }, s)

/-- Encode of the V2 `Aabb::write`. -/
def WireAabb.write (a : WireAabb) : Wr := fun buf => do
  let buf ← Pos3.write a.lower buf
  Pos3.write a.upper buf

/-- A vertex: position, normal, texture coordinate. -/
structure Vertex where
  position : Pos3
  normal : Pos3
  texture : Pos2
deriving DecidableEq

/-- Decode of `Vertex::read`. -/
def Vertex.read : Rd Vertex := fun s => do
  let (position, s) ← Pos3.read s
  let (normal, s) ← Pos3.read s
  let (texture, s) ← Pos2.read s
  .ok ({ position, normal, texture }, s)

/-- Encode of `Vertex::write`. -/
def Vertex.write (v : Vertex) : Wr := fun buf => do
  let buf ← Pos3.write v.position buf
  let buf ← Pos3.write v.normal buf
  Pos2.write v.texture buf

/-- The root chunk: sub-model name and model center. -/
structure Root where
  name : List Nat
  center : Pos3
deriving DecidableEq

/-- Decode of `Root::read`. -/
def Root.read : Rd Root := fun s => do
  let (name, s) ← readStringIso s
  let (center, s) ← Pos3.read s
  .ok ({ name, center }, s)

/-- Encode of `Root::write`. -/
def Root.write (r : Root) : Wr := fun buf => do
  let buf ← writeStringIso r.name buf
  Pos3.write r.center buf

/-- A material: name, texture id, one triangle selection per LOD level,
a vertex range, and the texture name. -/
structure Material where
  name : List Nat
  texture : Nat
  triangles : List TriangleSelection
  vertexOffset : Nat
  vertexCount : Nat
  textureName : List Nat
deriving DecidableEq

/-- Decode of `Material::read`: the number of triangle selections to read is
the caller-supplied LOD level count. -/
def Material.read (lodLevels : Nat) : Rd Material := fun s => do
  let (name, s) ← readStringIso s
  let (texture, s) ← readU32 s
  let (triangles, s) ← readN TriangleSelection.read lodLevels s
  let (vertexOffset, s) ← readU32 s
  let (vertexCount, s) ← readU32 s
  let (textureName, s) ← readStringIso s
  .ok ({ name, texture, triangles, vertexOffset, vertexCount, textureName }, s)

/-- Encode of `Material::write`: writes every stored selection. -/
def Material.write (m : Material) : Wr := fun buf => do
  let buf ← writeStringIso m.name buf
  let buf ← writeU32 m.texture buf
  let buf ← m.triangles.foldlM (fun buf sel => TriangleSelection.write sel buf) buf
  let buf ← writeU32 m.vertexOffset buf
  let buf ← writeU32 m.vertexCount buf
  writeStringIso m.textureName buf

/-- An animation frame: radius, vertices, tag-point positions, transform
matrix, and AABB. -/
structure Frame where
  radius : Nat
  vertices : List Vertex
  tagPoints : List Pos3
  transform : Mat4
  bound : WireAabb
deriving DecidableEq

/-- Decode of `Frame::read`: the vertex and tag-point counts come from the
caller (the quantities block and the tag-point list length). -/
def Frame.read (vertexCount tagPointCount : Nat) : Rd Frame := fun s => do
  let (radius, s) ← readF32 s
  let (vertices, s) ← readN Vertex.read vertexCount s
  let (tagPoints, s) ← readN Pos3.read tagPointCount s
  let (transform, s) ← Mat4.read s
  let (bound, s) ← WireAabb.read s
  .ok ({ radius, vertices, tagPoints, transform, bound }, s)

/-- Encode of `Frame::write`: writes every stored vertex and tag point. -/
def Frame.write (f : Frame) : Wr := fun buf => do
  let buf ← writeF32 f.radius buf
  let buf ← f.vertices.foldlM (fun buf v => Vertex.write v buf) buf
  let buf ← f.tagPoints.foldlM (fun buf p => Pos3.write p buf) buf
  let buf ← Mat4.write f.transform buf
  WireAabb.write f.bound buf

/-- The in-memory V2 model (`Model` in `src/v2.rs`).  The `triangles` and
`additionalModels` quantities are stored fields; the other counts live only
as the lengths of the stored vectors. -/
structure Model where
  triangles : Nat
  additionalModels : Nat
  root : Root
  lodLevels : List (List Triangle)
  materials : List Material
  tagPoints : List (List Nat)
  frames : List Frame
deriving DecidableEq

/-- Decode of one LOD level inside `Model::read`: a `u32` triangle count
followed by that many triangles. -/
def Lod.read : Rd (List Triangle) := fun s => do
  let (count, s) ← readU32 s
  readN Triangle.read count s

/-- Decode of `Model::read`: quantities, root, LOD levels, materials
(each with one selection per read LOD level), tag-point names, frames
(sized by the vertex quantity and the tag-point list length). -/
def Model.read : Rd Model := fun s => do
  let (q, s) ← Quantities.read s
  let (root, s) ← Root.read s
  let (lodLevels, s) ← readN Lod.read q.lodLevels s
  let (materials, s) ← readN (Material.read lodLevels.length) q.materials s
  let (tagPoints, s) ← readN readStringIso q.tags s
  let (frames, s) ← readN (Frame.read q.vertices tagPoints.length) q.frames s
  .ok ({ triangles := q.triangles, additionalModels := q.additionalModels,
         root, lodLevels, materials, tagPoints, frames }, s)

/-- Vertex count of the first frame (the `self.frames[0].vertices.len()`
access of `Model::quantities`; 0 if there is no frame, which
`Model.quantities` rules out before the access). -/
def Model.firstFrameVertexCount (m : Model) : Nat :=
  match m.frames with
  | [] => 0
  | f :: _ => f.vertices.length

/-- The validation and re-derivation of `Model::quantities`: empty
materials, LOD levels, or frames are rejected; otherwise the counts are
taken from the stored `triangles` and `additionalModels` fields and from
the lengths of the stored vectors (each cast `as u32`). -/
def Model.quantities (m : Model) : Except String Quantities :=
  if m.materials.length = 0 then
    .error "A model must have at least 1 material"
  else if m.lodLevels.length = 0 then
    .error "A model must have at least 1 LOD level"
  else if m.frames.length = 0 then
    .error "A model must have at least 1 frame"
  else
    .ok { triangles := m.triangles,
          vertices := m.firstFrameVertexCount % 4294967296,
          tags := m.tagPoints.length % 4294967296,
          materials := m.materials.length % 4294967296,
          frames := m.frames.length % 4294967296,
          additionalModels := m.additionalModels,
          lodLevels := m.lodLevels.length % 4294967296 }

/-- Encode of one LOD level inside `Model::write`: the `u32` triangle count
(`triangles.len() as u32`) followed by every triangle. -/
def Lod.write (lod : List Triangle) : Wr := fun buf => do
  let buf ← writeU32 lod.length buf
  lod.foldlM (fun buf t => Triangle.write t buf) buf

/-- The body of `Model::write` after the quantities block: root, LOD
levels, materials, tag-point names, frames. -/
def Model.writeBody (m : Model) : Wr := fun buf => do
  let buf ← Root.write m.root buf
  let buf ← m.lodLevels.foldlM (fun buf lod => Lod.write lod buf) buf
  let buf ← m.materials.foldlM (fun buf mat => Material.write mat buf) buf
  let buf ← m.tagPoints.foldlM (fun buf tp => writeStringIso tp buf) buf
  m.frames.foldlM (fun buf f => Frame.write f buf) buf

/-- Encode of `Model::write`: validate and derive the quantities first
(failing with `InvalidData` before anything is emitted), then write the
quantities block followed by the body. -/
def Model.write (m : Model) : Wr := fun buf =>
  match m.quantities with
  | .error e => .error (.invalidData e, buf)
  | .ok q => do
    let buf ← Quantities.write q buf
    Model.writeBody m buf

end V2

/-! Scene assembler (`src/scene.rs`). -/

/-- Node metadata exchanged between a model codec and the scene assembler:
the count of child scenes that follow, and the display name. -/
structure NodeData where
  additionalModels : Nat
  name : List Nat
deriving DecidableEq

/-- A scene node: name, model payload, and exclusively-owned children. -/
inductive SceneT (M : Type) where
  | node (name : List Nat) (model : M) (children : List (SceneT M))

/-- Name of a scene node. -/
def SceneT.name : SceneT M → List Nat
  | .node n _ _ => n

/-- Model payload of a scene node. -/
def SceneT.model : SceneT M → M
  | .node _ m _ => m

/-- Children of a scene node. -/
def SceneT.children : SceneT M → List (SceneT M)
  | .node _ _ cs => cs

/-- The body of `Scene::read_without_header`: decode the model body (which
yields the model and the node metadata), then decode exactly
`additional_models` child scenes with the reader `child`, in stream order,
and assemble the node.  In `Scene::read` the `child` reader is the recursive
`Scene::read` itself. -/
def sceneNodeRead (body : Rd (M × NodeData)) (child : Rd (SceneT M)) :
    Rd (SceneT M) := fun s => do
  let ((m, node), s) ← body s
  let (children, s) ← readN child node.additionalModels s
  .ok (.node node.name m children, s)

/-- Decode of `Scene::read`: read the fixed header; on mismatch fail with
the error carrying both the expected and the actual header; on match decode
the body and the recursively read children.  The `Nat` argument is an
explicit recursion budget standing for the call stack of the Rust
recursion; every claim is stated with a sufficient budget. -/
def sceneRead (hdr : ModelHeader) (body : Rd (M × NodeData)) :
    Nat → Rd (SceneT M)
  | 0 => fun _ => .error .depthLimit
  | fuel + 1 => fun s => do
    let (header, s) ← ModelHeader.read s
    if header = hdr then
      sceneNodeRead body (sceneRead hdr body fuel) s
    else
      .error (.mismatch hdr header)

/-- The V2 model body as a scene body reader: the snapshot of `src/v2.rs`
stores the node name in `root.name` and the child count in
`additional_models`, so the scene assembler's `NodeData` is read off those
two fields of the decoded model. -/
def V2.nodeRead : Rd (V2.Model × NodeData) := fun s =>
  match V2.Model.read s with
  | .ok (m, rest) =>
    .ok ((m, { additionalModels := m.additionalModels, name := m.root.name }), rest)
  | .error e => .error e

/-- `Scene::<V2>::read`: the scene reader at the V2 header and body. -/
def V2.sceneRead : Nat → Rd (SceneT V2.Model) :=
  Cem.sceneRead V2.EXPECTED_MODEL_HEADER V2.nodeRead

/-! V5 codec (`src/v5.rs`). -/

namespace V5

/-- The V5 quantities block: eight `u32` counts. -/
structure Quantities where
  unknown0 : Nat
  unknown1 : Nat
  tagPoints : Nat
  materials : Nat
  frames : Nat
  additionalModels : Nat
  lodLevels : Nat
  points : Nat
deriving DecidableEq

/-- Decode of the V5 `Quantities::read`. -/
def Quantities.read : Rd Quantities := fun s => do
  let (unknown0, s) ← readU32 s
  let (unknown1, s) ← readU32 s
  let (tagPoints, s) ← readU32 s
  let (materials, s) ← readU32 s
  let (frames, s) ← readU32 s
  let (additionalModels, s) ← readU32 s
  let (lodLevels, s) ← readU32 s
  let (points, s) ← readU32 s
  .ok ({ unknown0, unknown1, tagPoints, materials, frames,
         additionalModels, lodLevels, points }, s)

/-- A V5 common vertex: sixteen `f32` words and one 32-bit signed value,
all of unknown meaning, carried raw. -/
structure CommonVertex where
  unknown0 : List Nat
  unknown1 : Nat
deriving DecidableEq

/-- Decode of `CommonVertex::read`: sixteen `f32` then an `i32`, all kept
as raw 32-bit words. -/
def CommonVertex.read : Rd CommonVertex := fun s => do
  let (unknown0, s) ← readN readF32 16 s
  let (unknown1, s) ← readU32 s
  .ok ({ unknown0, unknown1 }, s)

/-- A V5 frame carries only a radius in the source; its layout is not
understood and `Frame::read` never constructs one. -/
structure Frame where
  radius : Nat
deriving DecidableEq

/-- Decode of the V5 `Frame::read`: the source body is `unimplemented!()`,
a panic modelled as the distinct `unimplemented` error outcome. -/
def Frame.read : Rd Frame := fun _ => .error .unimplemented

/-- A V5 shadow edge: one `u32` and four `u16` of unknown meaning. -/
structure ShadowEdge where
  unknown0 : Nat
  unknown1 : List Nat
deriving DecidableEq

/-- Decode of `ShadowEdge::read`: the source body is `unimplemented!()`,
a panic modelled as the distinct `unimplemented` error outcome. -/
def ShadowEdge.read : Rd ShadowEdge := fun _ => .error .unimplemented

/-- Decode of one V5 LOD level: a `u32` triangle count followed by that
many triangles of three 16-bit indices. -/
def Lod16.read : Rd (List (Nat × Nat × Nat)) := fun s => do
  let (count, s) ← readU32 s
  readN (fun s => do
    let (a, s) ← readU16 s
    let (b, s) ← readU16 s
    let (c, s) ← readU16 s
    .ok ((a, b, c), s)) count s

/-- The fields of the V5 body whose layout is established, in stream order:
quantities, node name, center, common vertices, 16-bit LOD levels,
materials (the V2 material layout), tag-point names. -/
structure PreModel where
  quantities : Quantities
  name : List Nat
  center : Pos3
  commonVertices : List CommonVertex
  lodLevels : List (List (Nat × Nat × Nat))
  materials : List V2.Material
  tagPoints : List (List Nat)
deriving DecidableEq

/-- Decode of the established prefix of the V5 body (everything the source
reads before the first `Frame::read` call). -/
def PreModel.read : Rd PreModel := fun s => do
  let (quantities, s) ← Quantities.read s
  let (name, s) ← readStringIso s
  let (center, s) ← V2.Pos3.read s
  let (cvLen, s) ← readU32 s
  let (commonVertices, s) ← readN CommonVertex.read cvLen s
  let (lodLevels, s) ← readN Lod16.read quantities.lodLevels s
  let (materials, s) ← readN (V2.Material.read quantities.lodLevels) quantities.materials s
  let (tagPoints, s) ← readN readStringIso quantities.tagPoints s
  .ok ({ quantities, name, center, commonVertices, lodLevels, materials, tagPoints }, s)

/-- The in-memory V5 model (`struct V5` in `src/v5.rs`). -/
structure Model where
  quantities : Quantities
  center : Pos3
  commonVertices : List CommonVertex
  lodLevels : List (List (Nat × Nat × Nat))
  materials : List V2.Material
  tagPoints : List (List Nat)
  frames : List Frame
  points : List Pos3
  shadow : List ShadowEdge
deriving DecidableEq

/-- Decode of the V5 `Model::read` (`impl Model for V5`): the established
prefix, then `quantities.frames` frames, `quantities.points` points, and a
length-prefixed shadow-edge list; the node metadata is the name plus the
`additional_models` quantity. -/
def Model.read : Rd (Model × NodeData) := fun s => do
  let (pre, s) ← PreModel.read s
  let (frames, s) ← readN Frame.read pre.quantities.frames s
  let (points, s) ← readN V2.Pos3.read pre.quantities.points s
  let (shadowLen, s) ← readU32 s
  let (shadow, s) ← readN ShadowEdge.read shadowLen s
  .ok (({ quantities := pre.quantities, center := pre.center,
          commonVertices := pre.commonVertices, lodLevels := pre.lodLevels,
          materials := pre.materials, tagPoints := pre.tagPoints,
          frames, points, shadow },
        { additionalModels := pre.quantities.additionalModels, name := pre.name }), s)

end V5

/-! Collider engine (`src/collider.rs`).  The `f32` scalars of the source
are embedded as exact rationals; the two infinite corners of the sentinel
box become the top and bottom elements of the order completion
`WithBot (WithTop ℚ)`.  The bounding-sphere radius is `sqrt` of the
accumulated maximal squared distance; since that square root leaves ℚ, the
`Collider` value carries the squared radius and the theorems state the
radius as `Real.sqrt` of it. -/

/-- Extended rationals: ⊤ plays `f32::INFINITY`, ⊥ plays `-f32::INFINITY`. -/
abbrev XQ := WithBot (WithTop ℚ)

/-- Embed a finite rational into the extended rationals. -/
def qx (q : ℚ) : XQ := ((q : WithTop ℚ) : XQ)

/-- A finite 3D point (`Point3<f32>` fed to the builders). -/
structure Point3Q where
  x : ℚ
  y : ℚ
  z : ℚ
deriving DecidableEq

/-- An axis-aligned bounding box with possibly infinite corners. -/
structure Aabb where
  lowerX : XQ
  lowerY : XQ
  lowerZ : XQ
  upperX : XQ
  upperY : XQ
  upperZ : XQ
deriving DecidableEq

/-- The sentinel seed box (`INFINITE_AABB`): lower at +∞, upper at −∞. -/
def INFINITE_AABB : Aabb :=
  { lowerX := ⊤, lowerY := ⊤, lowerZ := ⊤, upperX := ⊥, upperY := ⊥, upperZ := ⊥ }

/-- The defined zero-size box at the origin (`Aabb::default`). -/
def Aabb.default : Aabb :=
  { lowerX := qx 0, lowerY := qx 0, lowerZ := qx 0,
    upperX := qx 0, upperY := qx 0, upperZ := qx 0 }

/-- `Aabb::with`: grow the box to cover a point by component-wise min on
the lower corner and max on the upper corner. -/
def Aabb.with (b : Aabb) (p : Point3Q) : Aabb :=
  { lowerX := min b.lowerX (qx p.x),
    lowerY := min b.lowerY (qx p.y),
    lowerZ := min b.lowerZ (qx p.z),
    upperX := max b.upperX (qx p.x),
    upperY := max b.upperY (qx p.y),
    upperZ := max b.upperZ (qx p.z) }

/-- Component-wise containment of a point in a box. -/
def Aabb.contains (b : Aabb) (p : Point3Q) : Prop :=
  b.lowerX ≤ qx p.x ∧ b.lowerY ≤ qx p.y ∧ b.lowerZ ≤ qx p.z ∧
  qx p.x ≤ b.upperX ∧ qx p.y ≤ b.upperY ∧ qx p.z ≤ b.upperZ

instance (b : Aabb) (p : Point3Q) : Decidable (b.contains p) := by
  unfold Aabb.contains
  infer_instance

/-- cgmath's `point.distance2(center)`: the squared Euclidean distance. -/
def dist2 (p c : Point3Q) : ℚ :=
  (c.x - p.x) * (c.x - p.x) + (c.y - p.y) * (c.y - p.y) + (c.z - p.z) * (c.z - p.z)

/-- The built collider: bounding box plus bounding-sphere radius, the
latter carried as its square (the source stores
`radius = radius_squared.sqrt()`). -/
structure Collider where
  aabb : Aabb
  radiusSquared : ℚ
deriving DecidableEq

/-- The streaming state of `ColliderBuilder`. -/
structure ColliderBuilder where
  center : Point3Q
  aabb : Aabb
  radiusSquared : ℚ
deriving DecidableEq

/-- `ColliderBuilder::begin`: fixed center, sentinel box, zero radius. -/
def ColliderBuilder.begin (center : Point3Q) : ColliderBuilder :=
  { center, aabb := INFINITE_AABB, radiusSquared := 0 }

/-- `ColliderBuilder::update`: take the max with the squared distance of
the new point to the center, and grow the box over the point. -/
def ColliderBuilder.update (b : ColliderBuilder) (p : Point3Q) : ColliderBuilder :=
  { b with radiusSquared := max b.radiusSquared (dist2 p b.center),
           aabb := b.aabb.with p }

/-- Feed a whole point sequence to the builder, in order. -/
def ColliderBuilder.updates (b : ColliderBuilder) (ps : List Point3Q) : ColliderBuilder :=
  ps.foldl ColliderBuilder.update b

/-- `ColliderBuilder::build`: if the box is still the sentinel (no point
was ever observed) replace it with the defined zero-size box at the
origin; the radius is the square root of the accumulated square. -/
def ColliderBuilder.build (b : ColliderBuilder) : Collider :=
  { aabb := if b.aabb = INFINITE_AABB then Aabb.default else b.aabb,
    radiusSquared := b.radiusSquared }

/-! Wire images: for each structure, the exact byte list its writer emits
(and its reader consumes) in the well-formed case.  These are the
yardsticks of the round-trip theorems. -/

/-- The byte image of the fixed header. -/
def ModelHeader.wire (h : ModelHeader) : List Nat :=
  u32le h.magic ++ u16le h.major ++ u16le h.minor

/-- The wire image of a string without NUL characters: `u32` length
(character count + 1), the bytes, a terminating zero. -/
def strWire (s : List Nat) : List Nat := u32le (s.length + 1) ++ s ++ [0]

namespace V2

/-- The wire image of the quantities block. -/
def quantitiesWire (q : Quantities) : List Nat :=
  u32le q.triangles ++ u32le q.vertices ++ u32le q.tags ++ u32le q.materials ++
  u32le q.frames ++ u32le q.additionalModels ++ u32le q.lodLevels

/-- The wire image of a triangle. -/
def triWire (t : Triangle) : List Nat := u32le t.a ++ u32le t.b ++ u32le t.c

/-- The wire image of a triangle selection. -/
def selWire (t : TriangleSelection) : List Nat := u32le t.offset ++ u32le t.len

/-- The wire image of a 2-component position. -/
def pos2Wire (p : Pos2) : List Nat := u32le p.x ++ u32le p.y

/-- The wire image of a 3-component position. -/
def pos3Wire (p : Pos3) : List Nat := u32le p.x ++ u32le p.y ++ u32le p.z

/-- The wire image of a matrix: sixteen `f32` slots in order. -/
def mat4Wire (m : Mat4) : List Nat :=
  u32le m.m0 ++ u32le m.m1 ++ u32le m.m2 ++ u32le m.m3 ++
  u32le m.m4 ++ u32le m.m5 ++ u32le m.m6 ++ u32le m.m7 ++
  u32le m.m8 ++ u32le m.m9 ++ u32le m.m10 ++ u32le m.m11 ++
  u32le m.m12 ++ u32le m.m13 ++ u32le m.m14 ++ u32le m.m15

/-- The wire image of an AABB: lower corner then upper corner. -/
def aabbWire (a : WireAabb) : List Nat := pos3Wire a.lower ++ pos3Wire a.upper

/-- The wire image of a vertex. -/
def vertexWire (v : Vertex) : List Nat :=
  pos3Wire v.position ++ pos3Wire v.normal ++ pos2Wire v.texture

/-- The wire image of the root chunk. -/
def rootWire (r : Root) : List Nat := strWire r.name ++ pos3Wire r.center

/-- The wire image of one LOD level: count plus triangles. -/
def lodWire (lod : List Triangle) : List Nat :=
  u32le lod.length ++ (lod.map triWire).flatten

/-- The wire image of a material. -/
def materialWire (m : Material) : List Nat :=
  strWire m.name ++ u32le m.texture ++ (m.triangles.map selWire).flatten ++
  u32le m.vertexOffset ++ u32le m.vertexCount ++ strWire m.textureName

/-- The wire image of a frame. -/
def frameWire (f : Frame) : List Nat :=
  u32le f.radius ++ (f.vertices.map vertexWire).flatten ++
  (f.tagPoints.map pos3Wire).flatten ++ mat4Wire f.transform ++ aabbWire f.bound

/-- The wire image of a whole well-formed model, with the quantity fields
at the values `Model::quantities` derives for it. -/
def Model.wire (m : Model) : List Nat :=
  quantitiesWire
    { triangles := m.triangles, vertices := m.firstFrameVertexCount,
      tags := m.tagPoints.length, materials := m.materials.length,
      frames := m.frames.length, additionalModels := m.additionalModels,
      lodLevels := m.lodLevels.length } ++
  rootWire m.root ++
  (m.lodLevels.map lodWire).flatten ++
  (m.materials.map materialWire).flatten ++
  (m.tagPoints.map strWire).flatten ++
  (m.frames.map frameWire).flatten

end V2

/-! Well-formedness: the side conditions under which the byte-level
round trip is exact.  Value bounds (`< 2^32`) restate the `u32`/`f32`
typing of the Rust fields; the string condition (non-NUL Latin-1
characters) and the per-frame tag-point count are genuine preconditions of
an exact round trip. -/

/-- A `u32`-ranged value. -/
abbrev IsU32 (n : Nat) : Prop := n < 4294967296

/-- A string that survives the ISO-8859-1 round trip verbatim: every
character is a non-NUL Latin-1 code point, and the length field fits the
writer's `u32` limit. -/
abbrev GoodStr (s : List Nat) : Prop :=
  (∀ c ∈ s, 0 < c ∧ c < 256) ∧ s.length + 1 ≤ 4294967295

namespace V2

/-- Well-formed position. -/
abbrev WfPos3 (p : Pos3) : Prop := IsU32 p.x ∧ IsU32 p.y ∧ IsU32 p.z

/-- Well-formed 2-component position. -/
abbrev WfPos2 (p : Pos2) : Prop := IsU32 p.x ∧ IsU32 p.y

/-- Well-formed matrix. -/
abbrev WfMat4 (m : Mat4) : Prop :=
  IsU32 m.m0 ∧ IsU32 m.m1 ∧ IsU32 m.m2 ∧ IsU32 m.m3 ∧
  IsU32 m.m4 ∧ IsU32 m.m5 ∧ IsU32 m.m6 ∧ IsU32 m.m7 ∧
  IsU32 m.m8 ∧ IsU32 m.m9 ∧ IsU32 m.m10 ∧ IsU32 m.m11 ∧
  IsU32 m.m12 ∧ IsU32 m.m13 ∧ IsU32 m.m14 ∧ IsU32 m.m15

/-- Well-formed AABB. -/
abbrev WfAabb (a : WireAabb) : Prop := WfPos3 a.lower ∧ WfPos3 a.upper

/-- Well-formed triangle. -/
abbrev WfTriangle (t : Triangle) : Prop := IsU32 t.a ∧ IsU32 t.b ∧ IsU32 t.c

/-- Well-formed triangle selection. -/
abbrev WfSel (t : TriangleSelection) : Prop := IsU32 t.offset ∧ IsU32 t.len

/-- Well-formed vertex. -/
abbrev WfVertex (v : Vertex) : Prop :=
  WfPos3 v.position ∧ WfPos3 v.normal ∧ WfPos2 v.texture

/-- Well-formed material carrying one selection per LOD level. -/
abbrev WfMaterial (lodLevels : Nat) (m : Material) : Prop :=
  GoodStr m.name ∧ IsU32 m.texture ∧ m.triangles.length = lodLevels ∧
  (∀ t ∈ m.triangles, WfSel t) ∧ IsU32 m.vertexOffset ∧
  IsU32 m.vertexCount ∧ GoodStr m.textureName

/-- Well-formed frame with the model-wide vertex and tag-point counts. -/
abbrev WfFrame (vertexCount tagPointCount : Nat) (f : Frame) : Prop :=
  IsU32 f.radius ∧ f.vertices.length = vertexCount ∧
  (∀ v ∈ f.vertices, WfVertex v) ∧ f.tagPoints.length = tagPointCount ∧
  (∀ p ∈ f.tagPoints, WfPos3 p) ∧ WfMat4 f.transform ∧ WfAabb f.bound

/-- are a model for which the byte-level round trip is exact: the
non-empty invariants, every frame with the first frame's vertex count and
one tag-point position per tag-point name, every material with one
selection per LOD level, all strings non-NUL Latin-1, and every count and
stored scalar within its wire type. -/
abbrev WfModel (m : Model) : Prop :=
  IsU32 m.triangles ∧ IsU32 m.additionalModels ∧
  GoodStr m.root.name ∧ WfPos3 m.root.center ∧
  m.materials ≠ [] ∧ m.lodLevels ≠ [] ∧ m.frames ≠ [] ∧
  IsU32 m.firstFrameVertexCount ∧ IsU32 m.tagPoints.length ∧
  IsU32 m.materials.length ∧ IsU32 m.frames.length ∧ IsU32 m.lodLevels.length ∧
  (∀ lod ∈ m.lodLevels, IsU32 lod.length ∧ ∀ t ∈ lod, WfTriangle t) ∧
  (∀ mat ∈ m.materials, WfMaterial m.lodLevels.length mat) ∧
  (∀ tp ∈ m.tagPoints, GoodStr tp) ∧
  (∀ f ∈ m.frames, WfFrame m.firstFrameVertexCount m.tagPoints.length f)

end V2

instance instDecGoodStr (s : List Nat) : Decidable (GoodStr s) := by
  unfold GoodStr
  infer_instance

instance instDecWfMaterial (n : Nat) (m : V2.Material) :
    Decidable (V2.WfMaterial n m) := by
  unfold V2.WfMaterial
  infer_instance

instance instDecWfFrame (vc tc : Nat) (f : V2.Frame) :
    Decidable (V2.WfFrame vc tc f) := by
  unfold V2.WfFrame
  infer_instance

instance instDecWfModel (m : V2.Model) : Decidable (V2.WfModel m) := by
  unfold V2.WfModel
  infer_instance

/-! Concrete values used by witnesses and counterexamples. -/

namespace V2

/-- A small but fully populated well-formed model. -/
def mFull : Model :=
  { triangles := 1, additionalModels := 0,
    root := { name := [82, 111, 111, 116], center := { x := 1, y := 2, z := 3 } },
    lodLevels := [[{ a := 0, b := 1, c := 2 }]],
    materials := [{ name := [77], texture := 5,
                    triangles := [{ offset := 0, len := 1 }],
                    vertexOffset := 0, vertexCount := 1, textureName := [84] }],
    tagPoints := [[80]],
    frames := [{ radius := 7,
                 vertices := [{ position := { x := 1, y := 2, z := 3 },
                                normal := { x := 4, y := 5, z := 6 },
                                texture := { x := 7, y := 8 } }],
                 tagPoints := [{ x := 9, y := 10, z := 11 }],
                 transform := { m0 := 0, m1 := 1, m2 := 2, m3 := 3, m4 := 4,
                                m5 := 5, m6 := 6, m7 := 7, m8 := 8, m9 := 9,
                                m10 := 10, m11 := 11, m12 := 12, m13 := 13,
                                m14 := 14, m15 := 15 },
                 bound := { lower := { x := 0, y := 0, z := 0 },
                            upper := { x := 1, y := 1, z := 1 } } }] }

/-- The all-zero matrix. -/
def mat4Zero : Mat4 :=
  { m0 := 0, m1 := 0, m2 := 0, m3 := 0, m4 := 0, m5 := 0, m6 := 0, m7 := 0,
    m8 := 0, m9 := 0, m10 := 0, m11 := 0, m12 := 0, m13 := 0, m14 := 0, m15 := 0 }

/-- A minimal frame with no vertices and no tag points. -/
def frameEmpty : Frame :=
  { radius := 0, vertices := [], tagPoints := [], transform := mat4Zero,
    bound := { lower := { x := 0, y := 0, z := 0 },
               upper := { x := 0, y := 0, z := 0 } } }

/-- A minimal material with one empty selection. -/
def materialMin : Material :=
  { name := [], texture := 0, triangles := [{ offset := 0, len := 0 }],
    vertexOffset := 0, vertexCount := 0, textureName := [] }

/-- A model meeting all non-empty invariants of the round-trip claim whose
root name ends in a NUL character. -/
def mNulName : Model :=
  { triangles := 0, additionalModels := 0,
    root := { name := [65, 0], center := { x := 0, y := 0, z := 0 } },
    lodLevels := [[]], materials := [materialMin], tagPoints := [],
    frames := [frameEmpty] }

/-- A model whose stored `triangles` quantity (7) disagrees with the length
of its first LOD level (0). -/
def mStoredTriangles : Model :=
  { triangles := 7, additionalModels := 0,
    root := { name := [], center := { x := 0, y := 0, z := 0 } },
    lodLevels := [[]], materials := [materialMin], tagPoints := [],
    frames := [frameEmpty] }

/-- A model with no materials, for the empty-collection write error. -/
def mNoMaterials : Model :=
  { triangles := 0, additionalModels := 0,
    root := { name := [], center := { x := 0, y := 0, z := 0 } },
    lodLevels := [[]], materials := [], tagPoints := [],
    frames := [frameEmpty] }

/-- The body bytes of a minimal V2 model that announces two child scenes:
all-zero quantities except `additional_models = 2`, an empty name, and an
all-zero center. -/
def c7RootBody : List Nat :=
  u32le 0 ++ u32le 0 ++ u32le 0 ++ u32le 0 ++ u32le 0 ++ u32le 2 ++ u32le 0 ++
  strWire [] ++ u32le 0 ++ u32le 0 ++ u32le 0

/-- The body bytes of a minimal childless V2 model. -/
def c7ChildBody : List Nat :=
  u32le 0 ++ u32le 0 ++ u32le 0 ++ u32le 0 ++ u32le 0 ++ u32le 0 ++ u32le 0 ++
  strWire [] ++ u32le 0 ++ u32le 0 ++ u32le 0

/-- A full child scene: V2 header plus childless body. -/
def c7Child : List Nat := ModelHeader.wire EXPECTED_MODEL_HEADER ++ c7ChildBody

/-- The root body followed by its two children. -/
def c7Stream : List Nat := c7RootBody ++ c7Child ++ c7Child

/-- The in-memory model decoded from `c7RootBody`. -/
def c7RootModel : Model :=
  { triangles := 0, additionalModels := 2,
    root := { name := [], center := { x := 0, y := 0, z := 0 } },
    lodLevels := [], materials := [], tagPoints := [], frames := [] }

/-- The in-memory model decoded from `c7ChildBody`. -/
def c7ChildModel : Model :=
  { triangles := 0, additionalModels := 0,
    root := { name := [], center := { x := 0, y := 0, z := 0 } },
    lodLevels := [], materials := [], tagPoints := [], frames := [] }

end V2

namespace V5

/-- A V5 stream whose established prefix parses (all counts zero except
one frame) and whose frame body is therefore reached. -/
def c9Stream : List Nat :=
  u32le 0 ++ u32le 0 ++ u32le 0 ++ u32le 0 ++ u32le 1 ++ u32le 0 ++ u32le 0 ++
  u32le 0 ++ strWire [] ++ u32le 0 ++ u32le 0 ++ u32le 0 ++ u32le 0

/-- The decoded established prefix of `c9Stream`. -/
def c9Pre : PreModel :=
  { quantities := { unknown0 := 0, unknown1 := 0, tagPoints := 0, materials := 0,
                    frames := 1, additionalModels := 0, lodLevels := 0, points := 0 },
    name := [], center := { x := 0, y := 0, z := 0 },
    commonVertices := [], lodLevels := [], materials := [], tagPoints := [] }

end V5

/-- The eight corners of the unit cube centered at the origin. -/
def cubeCorners : List Point3Q :=
  [⟨-(1/2), -(1/2), -(1/2)⟩, ⟨-(1/2), -(1/2), 1/2⟩,
   ⟨-(1/2), 1/2, -(1/2)⟩, ⟨-(1/2), 1/2, 1/2⟩,
   ⟨1/2, -(1/2), -(1/2)⟩, ⟨1/2, -(1/2), 1/2⟩,
   ⟨1/2, 1/2, -(1/2)⟩, ⟨1/2, 1/2, 1/2⟩]

/-! Lemma toolkit: how the monadic plumbing reduces, and what each reader
consumes and each writer emits in the well-formed case. -/

@[simp] theorem okBind (a : α) (f : α → Except ε β) :
    (Except.ok a >>= f) = f a := rfl

@[simp] theorem errBind (e : ε) (f : α → Except ε β) :
    ((Except.error e : Except ε α) >>= f) = .error e := rfl

theorem readU8_reads (b : Nat) : ∀ rest, readU8 (b :: rest) = .ok (b, rest) :=
  fun _ => rfl

theorem readU16_reads (x : Nat) (hx : x < 65536) :
    ∀ rest, readU16 (u16le x ++ rest) = .ok (x, rest) := by
  intro rest
  simp only [readU16, u16le, readU8, List.cons_append, List.nil_append, okBind,
    Except.ok.injEq, Prod.mk.injEq, and_true]
  omega

theorem readU32_reads (x : Nat) (hx : IsU32 x) :
    ∀ rest, readU32 (u32le x ++ rest) = .ok (x, rest) := by
  intro rest
  simp only [readU32, u32le, readU8, List.cons_append, List.nil_append, okBind,
    Except.ok.injEq, Prod.mk.injEq, and_true]
  omega

theorem readF32_reads (x : Nat) (hx : IsU32 x) :
    ∀ rest, readF32 (u32le x ++ rest) = .ok (x, rest) :=
  readU32_reads x hx

theorem readN_reads {α : Type} {f : Rd α} {enc : α → List Nat} {l : List α}
    (h : ∀ x ∈ l, ∀ rest, f (enc x ++ rest) = .ok (x, rest)) :
    ∀ rest, readN f l.length ((l.map enc).flatten ++ rest) = .ok (l, rest) := by
  induction l with
  | nil => intro rest; simp [readN]
  | cons x xs ih =>
    intro rest
    have hx := h x (List.mem_cons_self x xs)
    have hxs : ∀ y ∈ xs, ∀ rest, f (enc y ++ rest) = .ok (y, rest) :=
      fun y hy => h y (List.mem_cons_of_mem x hy)
    simp only [List.map_cons, List.flatten_cons, List.length_cons, List.append_assoc,
      readN, hx, okBind, ih hxs]

theorem readIsoChars_ended (t : List Nat) :
    ∀ rest, readIsoChars t.length true (t ++ rest) = .ok ([], rest) := by
  induction t with
  | nil => intro rest; simp [readIsoChars]
  | cons b bs ih =>
    intro rest
    simp [readIsoChars, ih rest]

theorem readIsoChars_all (field : List Nat) :
    ∀ rest, readIsoChars field.length false (field ++ rest) =
      .ok (field.takeWhile (fun b => b != 0), rest) := by
  induction field with
  | nil => intro rest; simp [readIsoChars]
  | cons b bs ih =>
    intro rest
    by_cases hb : b = 0
    · subst hb
      simp [readIsoChars, readIsoChars_ended bs rest, List.takeWhile_cons]
    · have hbe : (b == 0) = false := by simpa using hb
      simp [readIsoChars, hbe, ih rest, List.takeWhile_cons, hb]

/-- The string reader consumes the 4-byte length and then exactly the
declared number of bytes, returning the bytes before the first zero. -/
theorem readStringIso_spec (n : Nat) (field rest : List Nat)
    (hf : field.length = n) (hn : IsU32 n) :
    readStringIso (u32le n ++ field ++ rest) =
      .ok (field.takeWhile (fun b => b != 0), rest) := by
  subst hf
  simp only [readStringIso, List.append_assoc, readU32_reads _ hn, okBind]
  exact readIsoChars_all field rest

theorem takeWhile_append_zero (s : List Nat) (h : ∀ c ∈ s, c ≠ 0) :
    (s ++ [0]).takeWhile (fun b => b != 0) = s := by
  induction s with
  | nil => simp
  | cons c cs ih =>
    have hc := h c (List.mem_cons_self c cs)
    simp only [List.cons_append, List.takeWhile_cons]
    have : (c != 0) = true := by simpa using hc
    simp only [this, if_true, List.cons.injEq, true_and]
    exact ih (fun d hd => h d (List.mem_cons_of_mem c hd))

theorem goodStr_reads (s : List Nat) (h : GoodStr s) :
    ∀ rest, readStringIso (strWire s ++ rest) = .ok (s, rest) := by
  intro rest
  have hz : ∀ c ∈ s, c ≠ 0 := fun c hc => by have := (h.1 c hc).1; omega
  have hn : IsU32 (s.length + 1) := by have := h.2; unfold IsU32; omega
  have hspec := readStringIso_spec (s.length + 1) (s ++ [0]) rest (by simp) hn
  rw [takeWhile_append_zero s hz] at hspec
  simp only [strWire, List.append_assoc] at hspec ⊢
  exact hspec

theorem trimRightZeros_eq (s : List Nat) (h : ∀ c ∈ s, c ≠ 0) :
    trimRightZeros s = s := by
  unfold trimRightZeros
  have : s.reverse.dropWhile (fun c => c == 0) = s.reverse := by
    cases hr : s.reverse with
    | nil => simp
    | cons c cs =>
      have hc : c ∈ s.reverse := by rw [hr]; exact List.mem_cons_self c cs
      have : c ≠ 0 := h c (List.mem_reverse.mp hc)
      simp [List.dropWhile_cons, this]
  rw [this, List.reverse_reverse]

theorem map_isoByte_eq (s : List Nat) (h : ∀ c ∈ s, c < 256) :
    s.map isoByte = s := by
  induction s with
  | nil => rfl
  | cons c cs ih =>
    have hc := h c (List.mem_cons_self c cs)
    simp only [List.map_cons, List.cons.injEq]
    constructor
    · unfold isoByte
      have : c < 598 := by omega
      simp [this, Nat.mod_eq_of_lt hc]
    · exact ih (fun d hd => h d (List.mem_cons_of_mem c hd))

theorem writeStringIso_writes (s : List Nat) (h : GoodStr s) :
    ∀ buf, writeStringIso s buf = .ok (buf ++ strWire s) := by
  intro buf
  have hz : ∀ c ∈ s, c ≠ 0 := fun c hc => by have := (h.1 c hc).1; omega
  have hb : ∀ c ∈ s, c < 256 := fun c hc => (h.1 c hc).2
  unfold writeStringIso
  rw [trimRightZeros_eq s hz]
  have : ¬ (4294967295 < s.length + 1) := by have := h.2; omega
  simp only [this, if_false, map_isoByte_eq s hb, strWire, List.append_assoc]

theorem foldlM_writes {α : Type} {f : α → Wr} {enc : α → List Nat} (l : List α)
    (h : ∀ x ∈ l, ∀ buf, f x buf = .ok (buf ++ enc x)) :
    ∀ buf, l.foldlM (fun buf x => f x buf) buf = .ok (buf ++ (l.map enc).flatten) := by
  induction l with
  | nil => intro buf; simp; rfl
  | cons x xs ih =>
    intro buf
    have hx := h x (List.mem_cons_self x xs)
    have hxs : ∀ y ∈ xs, ∀ buf, f y buf = .ok (buf ++ enc y) :=
      fun y hy => h y (List.mem_cons_of_mem x hy)
    simp only [List.foldlM_cons, hx, okBind, ih hxs, List.map_cons,
      List.flatten_cons, List.append_assoc]

theorem writeU32_writes (x : Nat) : ∀ buf, writeU32 x buf = .ok (buf ++ u32le x) :=
  fun _ => rfl

theorem v2QuantitiesWrites (q : V2.Quantities) :
    ∀ buf, q.write buf = .ok (buf ++ V2.quantitiesWire q) := by
  intro buf
  simp only [V2.Quantities.write, V2.quantitiesWire, writeU32, okBind,
    List.append_assoc]

theorem v2TriangleWrites (t : V2.Triangle) :
    ∀ buf, t.write buf = .ok (buf ++ V2.triWire t) := by
  intro buf
  simp only [V2.Triangle.write, V2.triWire, writeU32, okBind, List.append_assoc]

theorem v2SelWrites (t : V2.TriangleSelection) :
    ∀ buf, t.write buf = .ok (buf ++ V2.selWire t) := by
  intro buf
  simp only [V2.TriangleSelection.write, V2.selWire, writeU32, okBind,
    List.append_assoc]

theorem v2Pos2Writes (p : Pos2) :
    ∀ buf, V2.Pos2.write p buf = .ok (buf ++ V2.pos2Wire p) := by
  intro buf
  simp only [V2.Pos2.write, V2.pos2Wire, writeF32, writeU32, okBind,
    List.append_assoc]

theorem v2Pos3Writes (p : Pos3) :
    ∀ buf, V2.Pos3.write p buf = .ok (buf ++ V2.pos3Wire p) := by
  intro buf
  simp only [V2.Pos3.write, V2.pos3Wire, writeF32, writeU32, okBind,
    List.append_assoc]

theorem v2Mat4Writes (m : Mat4) :
    ∀ buf, V2.Mat4.write m buf = .ok (buf ++ V2.mat4Wire m) := by
  intro buf
  simp only [V2.Mat4.write, V2.mat4Wire, writeF32, writeU32, okBind,
    List.append_assoc]

theorem v2AabbWrites (a : WireAabb) :
    ∀ buf, V2.WireAabb.write a buf = .ok (buf ++ V2.aabbWire a) := by
  intro buf
  simp only [V2.WireAabb.write, V2.aabbWire, v2Pos3Writes, okBind,
    List.append_assoc]

theorem v2VertexWrites (v : V2.Vertex) :
    ∀ buf, v.write buf = .ok (buf ++ V2.vertexWire v) := by
  intro buf
  simp only [V2.Vertex.write, V2.vertexWire, v2Pos3Writes, v2Pos2Writes, okBind,
    List.append_assoc]

theorem v2RootWrites (r : V2.Root) (h : GoodStr r.name) :
    ∀ buf, r.write buf = .ok (buf ++ V2.rootWire r) := by
  intro buf
  simp only [V2.Root.write, V2.rootWire, writeStringIso_writes r.name h,
    v2Pos3Writes, okBind, List.append_assoc]

theorem v2LodWrites (lod : List V2.Triangle) :
    ∀ buf, V2.Lod.write lod buf = .ok (buf ++ V2.lodWire lod) := by
  intro buf
  simp only [V2.Lod.write, V2.lodWire, writeU32, okBind,
    foldlM_writes lod (fun t _ => v2TriangleWrites t), List.append_assoc]

theorem v2MaterialWrites (m : V2.Material) (h1 : GoodStr m.name)
    (h2 : GoodStr m.textureName) :
    ∀ buf, m.write buf = .ok (buf ++ V2.materialWire m) := by
  intro buf
  simp only [V2.Material.write, V2.materialWire, writeStringIso_writes m.name h1,
    writeStringIso_writes m.textureName h2, writeU32, okBind,
    foldlM_writes m.triangles (fun t _ => v2SelWrites t), List.append_assoc]

theorem v2FrameWrites (f : V2.Frame) :
    ∀ buf, f.write buf = .ok (buf ++ V2.frameWire f) := by
  intro buf
  simp only [V2.Frame.write, V2.frameWire, writeF32, writeU32, okBind,
    foldlM_writes f.vertices (fun v _ => v2VertexWrites v),
    foldlM_writes f.tagPoints (fun p _ => v2Pos3Writes p),
    v2Mat4Writes, v2AabbWrites, List.append_assoc]

theorem v2QuantitiesReads (q : V2.Quantities) (h1 : IsU32 q.triangles)
    (h2 : IsU32 q.vertices) (h3 : IsU32 q.tags) (h4 : IsU32 q.materials)
    (h5 : IsU32 q.frames) (h6 : IsU32 q.additionalModels) (h7 : IsU32 q.lodLevels) :
    ∀ rest, V2.Quantities.read (V2.quantitiesWire q ++ rest) = .ok (q, rest) := by
  intro rest
  simp only [V2.Quantities.read, V2.quantitiesWire, List.append_assoc,
    readU32_reads _ h1, readU32_reads _ h2, readU32_reads _ h3, readU32_reads _ h4,
    readU32_reads _ h5, readU32_reads _ h6, readU32_reads _ h7, okBind]

theorem v2TriangleReads (t : V2.Triangle) (h : V2.WfTriangle t) :
    ∀ rest, V2.Triangle.read (V2.triWire t ++ rest) = .ok (t, rest) := by
  intro rest
  simp only [V2.Triangle.read, V2.triWire, List.append_assoc,
    readU32_reads _ h.1, readU32_reads _ h.2.1, readU32_reads _ h.2.2, okBind]

theorem v2SelReads (t : V2.TriangleSelection) (h : V2.WfSel t) :
    ∀ rest, V2.TriangleSelection.read (V2.selWire t ++ rest) = .ok (t, rest) := by
  intro rest
  simp only [V2.TriangleSelection.read, V2.selWire, List.append_assoc,
    readU32_reads _ h.1, readU32_reads _ h.2, okBind]

theorem v2Pos2Reads (p : Pos2) (h : V2.WfPos2 p) :
    ∀ rest, V2.Pos2.read (V2.pos2Wire p ++ rest) = .ok (p, rest) := by
  intro rest
  simp only [V2.Pos2.read, V2.pos2Wire, List.append_assoc,
    readF32_reads _ h.1, readF32_reads _ h.2, okBind]

theorem v2Pos3Reads (p : Pos3) (h : V2.WfPos3 p) :
    ∀ rest, V2.Pos3.read (V2.pos3Wire p ++ rest) = .ok (p, rest) := by
  intro rest
  simp only [V2.Pos3.read, V2.pos3Wire, List.append_assoc,
    readF32_reads _ h.1, readF32_reads _ h.2.1, readF32_reads _ h.2.2, okBind]

theorem v2Mat4Reads (m : Mat4) (h : V2.WfMat4 m) :
    ∀ rest, V2.Mat4.read (V2.mat4Wire m ++ rest) = .ok (m, rest) := by
  intro rest
  obtain ⟨g0, g1, g2, g3, g4, g5, g6, g7, g8, g9, g10, g11, g12, g13, g14, g15⟩ := h
  simp only [V2.Mat4.read, V2.mat4Wire, List.append_assoc,
    readF32_reads _ g0, readF32_reads _ g1, readF32_reads _ g2, readF32_reads _ g3,
    readF32_reads _ g4, readF32_reads _ g5, readF32_reads _ g6, readF32_reads _ g7,
    readF32_reads _ g8, readF32_reads _ g9, readF32_reads _ g10, readF32_reads _ g11,
    readF32_reads _ g12, readF32_reads _ g13, readF32_reads _ g14, readF32_reads _ g15,
    okBind]

theorem v2AabbReads (a : WireAabb) (h : V2.WfAabb a) :
    ∀ rest, V2.WireAabb.read (V2.aabbWire a ++ rest) = .ok (a, rest) := by
  intro rest
  simp only [V2.WireAabb.read, V2.aabbWire, List.append_assoc,
    v2Pos3Reads _ h.1, v2Pos3Reads _ h.2, okBind]

theorem v2VertexReads (v : V2.Vertex) (h : V2.WfVertex v) :
    ∀ rest, V2.Vertex.read (V2.vertexWire v ++ rest) = .ok (v, rest) := by
  intro rest
  simp only [V2.Vertex.read, V2.vertexWire, List.append_assoc,
    v2Pos3Reads _ h.1, v2Pos3Reads _ h.2.1, v2Pos2Reads _ h.2.2, okBind]

theorem v2RootReads (r : V2.Root) (h1 : GoodStr r.name) (h2 : V2.WfPos3 r.center) :
    ∀ rest, V2.Root.read (V2.rootWire r ++ rest) = .ok (r, rest) := by
  intro rest
  simp only [V2.Root.read, V2.rootWire, List.append_assoc,
    goodStr_reads _ h1, v2Pos3Reads _ h2, okBind]

theorem v2LodReads (lod : List V2.Triangle) (h1 : IsU32 lod.length)
    (h2 : ∀ t ∈ lod, V2.WfTriangle t) :
    ∀ rest, V2.Lod.read (V2.lodWire lod ++ rest) = .ok (lod, rest) := by
  intro rest
  simp only [V2.Lod.read, V2.lodWire, List.append_assoc,
    readU32_reads _ h1, okBind,
    readN_reads (fun t ht => v2TriangleReads t (h2 t ht))]

theorem v2MaterialReads (nLods : Nat) (m : V2.Material)
    (h : V2.WfMaterial nLods m) :
    ∀ rest, V2.Material.read nLods (V2.materialWire m ++ rest) = .ok (m, rest) := by
  intro rest
  obtain ⟨hn, ht, hlen, hsel, ho, hc, htn⟩ := h
  subst hlen
  simp only [V2.Material.read, V2.materialWire, List.append_assoc,
    goodStr_reads _ hn, goodStr_reads _ htn, readU32_reads _ ht,
    readU32_reads _ ho, readU32_reads _ hc, okBind,
    readN_reads (fun t hmem => v2SelReads t (hsel t hmem))]

theorem v2FrameReads (vc tc : Nat) (f : V2.Frame) (h : V2.WfFrame vc tc f) :
    ∀ rest, V2.Frame.read vc tc (V2.frameWire f ++ rest) = .ok (f, rest) := by
  intro rest
  obtain ⟨hr, hvl, hvw, htl, htw, hm, hb⟩ := h
  subst hvl
  subst htl
  simp only [V2.Frame.read, V2.frameWire, List.append_assoc,
    readF32_reads _ hr, okBind,
    readN_reads (fun v hv => v2VertexReads v (hvw v hv)),
    readN_reads (fun p hp => v2Pos3Reads p (htw p hp)),
    v2Mat4Reads _ hm, v2AabbReads _ hb]

theorem v2QuantitiesOk (m : V2.Model) (h1 : m.materials ≠ [])
    (h2 : m.lodLevels ≠ []) (h3 : m.frames ≠ []) :
    m.quantities = .ok
      { triangles := m.triangles,
        vertices := m.firstFrameVertexCount % 4294967296,
        tags := m.tagPoints.length % 4294967296,
        materials := m.materials.length % 4294967296,
        frames := m.frames.length % 4294967296,
        additionalModels := m.additionalModels,
        lodLevels := m.lodLevels.length % 4294967296 } := by
  have e1 : ¬ (m.materials.length = 0) := by simpa using h1
  have e2 : ¬ (m.lodLevels.length = 0) := by simpa using h2
  have e3 : ¬ (m.frames.length = 0) := by simpa using h3
  simp only [V2.Model.quantities, e1, e2, e3, if_false]

theorem v2ModelWrites (m : V2.Model) (h : V2.WfModel m) :
    ∀ buf, V2.Model.write m buf = .ok (buf ++ V2.Model.wire m) := by
  intro buf
  obtain ⟨ht, ha, hname, hcenter, hm, hl, hf, hvc, htagl, hmatl, hfrl, hlodl,
    hlods, hmats, htags, hframes⟩ := h
  rw [V2.Model.write, v2QuantitiesOk m hm hl hf]
  rw [Nat.mod_eq_of_lt hvc, Nat.mod_eq_of_lt htagl, Nat.mod_eq_of_lt hmatl,
    Nat.mod_eq_of_lt hfrl, Nat.mod_eq_of_lt hlodl]
  simp only [V2.Model.writeBody, V2.Model.wire, v2QuantitiesWrites, okBind,
    v2RootWrites m.root hname,
    foldlM_writes m.lodLevels (fun lod _ => v2LodWrites lod),
    foldlM_writes m.materials
      (fun mat hmem => v2MaterialWrites mat (hmats mat hmem).1
        (hmats mat hmem).2.2.2.2.2.2),
    foldlM_writes m.tagPoints (fun tp htp => writeStringIso_writes tp (htags tp htp)),
    foldlM_writes m.frames (fun f _ => v2FrameWrites f),
    List.append_assoc]

theorem v2ModelReads (m : V2.Model) (h : V2.WfModel m) :
    ∀ rest, V2.Model.read (V2.Model.wire m ++ rest) = .ok (m, rest) := by
  intro rest
  obtain ⟨ht, ha, hname, hcenter, hm, hl, hf, hvc, htagl, hmatl, hfrl, hlodl,
    hlods, hmats, htags, hframes⟩ := h
  have hq := v2QuantitiesReads
    { triangles := m.triangles, vertices := m.firstFrameVertexCount,
      tags := m.tagPoints.length, materials := m.materials.length,
      frames := m.frames.length, additionalModels := m.additionalModels,
      lodLevels := m.lodLevels.length }
    ht hvc htagl hmatl hfrl ha hlodl
  simp only [V2.Model.read, V2.Model.wire, List.append_assoc,
    hq, okBind,
    v2RootReads m.root hname hcenter,
    readN_reads (fun lod hlod =>
      v2LodReads lod (hlods lod hlod).1 (hlods lod hlod).2),
    readN_reads (fun mat hmat => v2MaterialReads m.lodLevels.length mat (hmats mat hmat)),
    readN_reads (fun tp htp => goodStr_reads tp (htags tp htp)),
    readN_reads (fun f hf2 =>
      v2FrameReads m.firstFrameVertexCount m.tagPoints.length f (hframes f hf2))]

/-! Claim theorems. -/

/-- Claim C1, counterexample: the model `mNulName` satisfies every
hypothesis the claim states (non-empty materials, LOD levels and frames,
uniform frame vertex count, one selection per LOD level in every material),
yet writing and re-reading it does not reproduce it: its root name `"A\0"`
is trimmed to `"A"` on the wire, so decode returns a different model. -/
theorem c1_encode_decode_counterexample :
    (V2.mNulName.materials ≠ [] ∧ V2.mNulName.lodLevels ≠ [] ∧
     V2.mNulName.frames ≠ [] ∧
     (∀ f ∈ V2.mNulName.frames,
        f.vertices.length = V2.mNulName.firstFrameVertexCount) ∧
     (∀ mat ∈ V2.mNulName.materials,
        mat.triangles.length = V2.mNulName.lodLevels.length)) ∧
    ∃ bytes m2, V2.Model.write V2.mNulName [] = .ok bytes ∧
      V2.Model.read bytes = .ok (m2, []) ∧ m2 ≠ V2.mNulName := by
  refine ⟨⟨by decide, by decide, by decide, by decide, by decide⟩, ?_⟩
  exact ⟨_, _, rfl, rfl, by decide⟩

/-- Claim C1 (amended): for every V2 model with non-empty materials, LOD
levels and frames, a uniform frame vertex count, one triangle selection per
LOD level in every material, and additionally one tag-point position per
tag-point name in every frame, every string made of non-NUL Latin-1
characters, and every count and scalar within its 32-bit wire type
(`WfModel`), `Model::write` succeeds and emits a byte string from which
`Model::read` reproduces the model exactly, field for field. -/
theorem c1_encode_decode_roundtrip (m : V2.Model) (h : V2.WfModel m) :
    ∃ bytes, (∀ buf, V2.Model.write m buf = .ok (buf ++ bytes)) ∧
      ∀ rest, V2.Model.read (bytes ++ rest) = .ok (m, rest) :=
  ⟨V2.Model.wire m, v2ModelWrites m h, v2ModelReads m h⟩

/-- Claim C1, witness: the concrete model `mFull` is well-formed and round
trips. -/
theorem c1_encode_decode_roundtrip_witness :
    V2.WfModel V2.mFull ∧
    ∃ bytes, (∀ buf, V2.Model.write V2.mFull buf = .ok (buf ++ bytes)) ∧
      ∀ rest, V2.Model.read (bytes ++ rest) = .ok (V2.mFull, rest) :=
  ⟨by decide, c1_encode_decode_roundtrip V2.mFull (by decide)⟩

/-- Claim C2, counterexample: on `mStoredTriangles` the derived quantities
succeed with triangle quantity 7, the stored field, although its first LOD
level holds 0 triangles — the written triangle quantity is not
`lod_levels[0].len()`. -/
theorem c2_quantities_counterexample :
    ∃ q, V2.Model.quantities V2.mStoredTriangles = .ok q ∧
      q.triangles = 7 ∧ (V2.mStoredTriangles.lodLevels.headD []).length = 0 ∧
      q.triangles ≠ (V2.mStoredTriangles.lodLevels.headD []).length :=
  ⟨_, rfl, rfl, rfl, by decide⟩

/-- Claim C2 (amended): for every model accepted for writing, the triangle
quantity written to the stream is the model's stored `triangles` field (not
a value derived from the first LOD level), while the vertex quantity is
derived from `frames[0].vertices.len()` (cast to `u32`); the quantities
block with exactly these values is what `Model::write` emits first. -/
theorem c2_quantities_derivation (m : V2.Model) (q : V2.Quantities)
    (h : m.quantities = .ok q) :
    q.triangles = m.triangles ∧
    q.vertices = m.firstFrameVertexCount % 4294967296 ∧
    ∀ buf, V2.Model.write m buf =
      (do let buf ← q.write buf; V2.Model.writeBody m buf) := by
  have hq := h
  unfold V2.Model.quantities at h
  split_ifs at h with h1 h2 h3
  injection h with h
  subst h
  exact ⟨rfl, rfl, fun buf => by simp only [V2.Model.write, hq]⟩

/-- Claim C2, witness: the derivation at the concrete model `mFull`. -/
theorem c2_quantities_derivation_witness :
    ∃ q, V2.Model.quantities V2.mFull = .ok q ∧
      (q.triangles = V2.mFull.triangles ∧
       q.vertices = V2.mFull.firstFrameVertexCount % 4294967296 ∧
       ∀ buf, V2.Model.write V2.mFull buf =
         (do let buf ← q.write buf; V2.Model.writeBody V2.mFull buf)) :=
  ⟨_, rfl, c2_quantities_derivation V2.mFull _ rfl⟩

/-- Claim C3: `Scene::<V2>::read` proceeds past the header exactly when the
first 8 bytes decode to magic `0x464D5353`, major 2, minor 0: on that
header it continues with `read_without_header` on the remaining stream, on
any other decoded header it fails with the format-mismatch error carrying
both the expected and the actual header, and a wrong magic fails in that
same way whatever the major and minor are. -/
theorem c3_header_dispatch (f : Nat) (s s2 : List Nat) (h : ModelHeader)
    (hread : ModelHeader.read s = .ok (h, s2)) :
    (h = V2.EXPECTED_MODEL_HEADER →
      V2.sceneRead (f + 1) s = sceneNodeRead V2.nodeRead (V2.sceneRead f) s2) ∧
    (h ≠ V2.EXPECTED_MODEL_HEADER →
      V2.sceneRead (f + 1) s = .error (.mismatch V2.EXPECTED_MODEL_HEADER h)) ∧
    (h.magic ≠ MAGIC →
      V2.sceneRead (f + 1) s = .error (.mismatch V2.EXPECTED_MODEL_HEADER h)) := by
  have base : V2.sceneRead (f + 1) s =
      (do
        let (header, s) ← ModelHeader.read s
        if header = V2.EXPECTED_MODEL_HEADER then
          sceneNodeRead V2.nodeRead (V2.sceneRead f) s
        else
          .error (.mismatch V2.EXPECTED_MODEL_HEADER header)) := rfl
  rw [base, hread, okBind]
  refine ⟨fun heq => by simp [heq], fun hne => by simp [hne], fun hmagic => ?_⟩
  have hne : h ≠ V2.EXPECTED_MODEL_HEADER := by
    intro heq
    exact hmagic (by rw [heq]; rfl)
  simp [hne]

/-- Claim C3, witness: eight zero bytes decode to the header (0,0,0) and
make the V2 scene reader fail with the mismatch error carrying both the
expected V2 header and the actual zero header. -/
theorem c3_header_dispatch_witness :
    V2.sceneRead 1 [0, 0, 0, 0, 0, 0, 0, 0] =
      .error (.mismatch V2.EXPECTED_MODEL_HEADER
        { magic := 0, major := 0, minor := 0 }) :=
  (c3_header_dispatch 0 [0, 0, 0, 0, 0, 0, 0, 0] []
    { magic := 0, major := 0, minor := 0 } rfl).2.1 (by decide)

/-- Claim C4: the spec says every character above `U+00FF` is written as
`'?'` (byte 63).  The code's own documentation says the same, but its test
is `char < '\u{256}'` with an `as u8` truncation, so characters `U+0100`
through `U+0255` are emitted as their low byte instead: `U+0100` becomes
byte 0 and `U+0130` becomes byte 48, while only characters from `U+0256` on
(such as `U+0391`) become `'?'`.  This evaluation exhibits the divergence
at the failing input `"\u{100}"`. -/
theorem c4_latin1_truncation :
    writeStringIso [256] [] = .ok [2, 0, 0, 0, 0, 0] ∧
    writeStringIso [304] [] = .ok [2, 0, 0, 0, 48, 0] ∧
    writeStringIso [913] [] = .ok [2, 0, 0, 0, 63, 0] ∧
    (0 : Nat) ≠ 63 :=
  ⟨rfl, rfl, rfl, by decide⟩

/-- Claim C5: for every declared length `n` and every stream holding `n`
bytes after the 4-byte length field, the string reader consumes exactly
those `n` bytes (leaving precisely the suffix) and returns as the logical
string the bytes strictly before the first zero byte. -/
theorem c5_string_read (n : Nat) (field rest : List Nat)
    (hf : field.length = n) (hn : IsU32 n) :
    readStringIso (u32le n ++ field ++ rest) =
      .ok (field.takeWhile (fun b => b != 0), rest) :=
  readStringIso_spec n field rest hf hn

/-- Claim C5, witness: a 12-byte field with the bytes of `"Hi\0garbage\0"`
(padded to 12 with a zero) decodes to `"Hi"` and consumes exactly 12 bytes,
leaving the two trailing marker bytes unread. -/
theorem c5_string_read_witness :
    readStringIso
        (u32le 12 ++ [72, 105, 0, 103, 97, 114, 98, 97, 103, 101, 0, 0] ++ [9, 9]) =
      .ok ([72, 105], [9, 9]) :=
  Eq.trans
    (c5_string_read 12 [72, 105, 0, 103, 97, 114, 98, 97, 103, 101, 0, 0] [9, 9]
      (by decide) (by decide)) rfl

/-- Claim C6: writing a V2 model with zero materials, zero LOD levels, or
zero frames fails with the invalid-data (structural violation) error and
leaves the output buffer exactly as it was — no byte is emitted. -/
theorem c6_empty_write_rejected (m : V2.Model)
    (h : m.materials = [] ∨ m.lodLevels = [] ∨ m.frames = []) :
    ∃ msg, V2.Model.quantities m = .error msg ∧
      ∀ buf, V2.Model.write m buf = .error (.invalidData msg, buf) := by
  have herr : ∃ msg, V2.Model.quantities m = .error msg := by
    unfold V2.Model.quantities
    rcases h with h | h | h
    · simp [h]
    · by_cases hm : m.materials.length = 0 <;> simp [h, hm]
    · by_cases hm : m.materials.length = 0 <;>
        by_cases hl : m.lodLevels.length = 0 <;> simp [h, hm, hl]
  obtain ⟨msg, hmsg⟩ := herr
  exact ⟨msg, hmsg, fun buf => by simp [V2.Model.write, hmsg]⟩

/-- Claim C6, witness: the concrete material-less model is rejected with
an unchanged buffer. -/
theorem c6_empty_write_rejected_witness :
    ∃ msg, V2.Model.quantities V2.mNoMaterials = .error msg ∧
      ∀ buf, V2.Model.write V2.mNoMaterials buf = .error (.invalidData msg, buf) :=
  c6_empty_write_rejected V2.mNoMaterials (Or.inl rfl)

theorem readN_length {α : Type} {f : Rd α} :
    ∀ (n : Nat) (s : List Nat) (xs : List α) (s2 : List Nat),
      readN f n s = .ok (xs, s2) → xs.length = n := by
  intro n
  induction n with
  | zero =>
    intro s xs s2 h
    simp only [readN, Except.ok.injEq, Prod.mk.injEq] at h
    rw [← h.1]
    rfl
  | succ n ih =>
    intro s xs s2 h
    unfold readN at h
    cases hf : f s with
    | error e => rw [hf] at h; simp at h
    | ok p =>
      obtain ⟨x, s1⟩ := p
      rw [hf] at h
      simp only [okBind] at h
      cases hr : readN f n s1 with
      | error e => rw [hr] at h; simp at h
      | ok p2 =>
        obtain ⟨xs1, s3⟩ := p2
        rw [hr] at h
        simp only [okBind, Except.ok.injEq, Prod.mk.injEq] at h
        rw [← h.1]
        simp [ih s1 xs1 s3 hr]

theorem headerReads (h : ModelHeader) (h1 : IsU32 h.magic) (h2 : h.major < 65536)
    (h3 : h.minor < 65536) :
    ∀ rest, ModelHeader.read (ModelHeader.wire h ++ rest) = .ok (h, rest) := by
  intro rest
  simp only [ModelHeader.read, ModelHeader.wire, List.append_assoc,
    readU32_reads _ h1, readU16_reads _ h2, readU16_reads _ h3, okBind]

/-- Claim C7: when the root model body declares `additional_models = n` and
the stream continues with `n` well-formed child scenes, the scene reader
returns a node with exactly those `n` children, in stream order, each child
decoded by the recursive `Scene::read` at the same version codec (the same
body reader and the same expected header); prefixing the V2 header makes
the full `Scene::<V2>::read` succeed on the whole stream. -/
theorem c7_scene_children (f : Nat) (s s1 s2 : List Nat) (m : V2.Model)
    (nd : NodeData) (cs : List (SceneT V2.Model))
    (hbody : V2.nodeRead s = .ok ((m, nd), s1))
    (hchildren : readN (V2.sceneRead f) nd.additionalModels s1 = .ok (cs, s2)) :
    cs.length = nd.additionalModels ∧
    sceneNodeRead V2.nodeRead (V2.sceneRead f) s = .ok (.node nd.name m cs, s2) ∧
    V2.sceneRead (f + 1) (ModelHeader.wire V2.EXPECTED_MODEL_HEADER ++ s) =
      .ok (.node nd.name m cs, s2) := by
  have hlen := readN_length nd.additionalModels s1 cs s2 hchildren
  have hnode : sceneNodeRead V2.nodeRead (V2.sceneRead f) s =
      .ok (.node nd.name m cs, s2) := by
    simp only [sceneNodeRead, hbody, okBind, hchildren]
  refine ⟨hlen, hnode, ?_⟩
  have hhdr := headerReads V2.EXPECTED_MODEL_HEADER (by decide) (by decide) (by decide)
  have base : V2.sceneRead (f + 1)
      (ModelHeader.wire V2.EXPECTED_MODEL_HEADER ++ s) =
      (do
        let (header, s) ← ModelHeader.read
          (ModelHeader.wire V2.EXPECTED_MODEL_HEADER ++ s)
        if header = V2.EXPECTED_MODEL_HEADER then
          sceneNodeRead V2.nodeRead (V2.sceneRead f) s
        else
          .error (.mismatch V2.EXPECTED_MODEL_HEADER header)) := rfl
  rw [base, hhdr s]
  simp only [okBind]
  simp [hnode]

/-- Claim C7, witness: a concrete root body announcing two children
followed by two child scenes decodes to a node with exactly those two
children, both through the header-checked scene reader. -/
theorem c7_scene_children_witness :
    sceneNodeRead V2.nodeRead (V2.sceneRead 1) V2.c7Stream =
      .ok (.node [] V2.c7RootModel
        [.node [] V2.c7ChildModel [], .node [] V2.c7ChildModel []], []) ∧
    V2.sceneRead 2 (ModelHeader.wire V2.EXPECTED_MODEL_HEADER ++ V2.c7Stream) =
      .ok (.node [] V2.c7RootModel
        [.node [] V2.c7ChildModel [], .node [] V2.c7ChildModel []], []) := by
  have h := c7_scene_children 1 V2.c7Stream (V2.c7Child ++ V2.c7Child) []
    V2.c7RootModel { additionalModels := 2, name := [] }
    [.node [] V2.c7ChildModel [], .node [] V2.c7ChildModel []] rfl rfl
  exact ⟨h.2.1, h.2.2⟩

theorem readNV5FrameOk (n : Nat) (s : List Nat) (xs : List V5.Frame)
    (s2 : List Nat) (h : readN V5.Frame.read n s = .ok (xs, s2)) :
    xs = [] ∧ s2 = s ∧ n = 0 := by
  cases n with
  | zero =>
    simp only [readN, Except.ok.injEq, Prod.mk.injEq] at h
    exact ⟨h.1.symm, h.2.symm, rfl⟩
  | succ n => simp [readN, V5.Frame.read] at h

theorem readNV5ShadowOk (n : Nat) (s : List Nat) (xs : List V5.ShadowEdge)
    (s2 : List Nat) (h : readN V5.ShadowEdge.read n s = .ok (xs, s2)) :
    xs = [] ∧ s2 = s ∧ n = 0 := by
  cases n with
  | zero =>
    simp only [readN, Except.ok.injEq, Prod.mk.injEq] at h
    exact ⟨h.1.symm, h.2.symm, rfl⟩
  | succ n => simp [readN, V5.ShadowEdge.read] at h

/-- Claim C9: the V5 decoder reads the established fields (the 8-count
quantities block, node name, center, common vertices, 16-bit LOD levels,
materials, tag points, and — when it gets that far — the point array), and
never fabricates frame or shadow-edge values: a successful decode carries
empty frame and shadow lists, a nonzero frame quantity aborts the whole
decode with the distinct `unimplemented` outcome (the `unimplemented!()`
panic of `Frame::read`), a nonempty shadow-edge list likewise, and the
frame-region and shadow-region readers themselves fail that way on any
nonzero count. -/
theorem c9_v5_unimplemented_regions :
    (∀ s p rest, V5.Model.read s = .ok (p, rest) →
       p.1.frames = [] ∧ p.1.shadow = []) ∧
    (∀ s pre s1, V5.PreModel.read s = .ok (pre, s1) →
       pre.quantities.frames ≠ 0 → V5.Model.read s = .error .unimplemented) ∧
    (∀ s pre s1 points s2 len s3, V5.PreModel.read s = .ok (pre, s1) →
       pre.quantities.frames = 0 →
       readN V2.Pos3.read pre.quantities.points s1 = .ok (points, s2) →
       readU32 s2 = .ok (len, s3) → len ≠ 0 →
       V5.Model.read s = .error .unimplemented) ∧
    (∀ n s, n ≠ 0 →
       readN V5.Frame.read n s = (.error .unimplemented : Except Err _)) ∧
    (∀ n s, n ≠ 0 →
       readN V5.ShadowEdge.read n s = (.error .unimplemented : Except Err _)) := by
  have hframes : ∀ n s, n ≠ 0 →
      readN V5.Frame.read n s = (.error .unimplemented : Except Err _) := by
    intro n s hn
    obtain ⟨k, rfl⟩ := Nat.exists_eq_succ_of_ne_zero hn
    simp [readN, V5.Frame.read]
  have hshadow : ∀ n s, n ≠ 0 →
      readN V5.ShadowEdge.read n s = (.error .unimplemented : Except Err _) := by
    intro n s hn
    obtain ⟨k, rfl⟩ := Nat.exists_eq_succ_of_ne_zero hn
    simp [readN, V5.ShadowEdge.read]
  refine ⟨?_, ?_, ?_, hframes, hshadow⟩
  · intro s p rest h
    unfold V5.Model.read at h
    cases hpre : V5.PreModel.read s with
    | error e => rw [hpre] at h; simp at h
    | ok pp =>
      obtain ⟨pre, s1⟩ := pp
      rw [hpre] at h
      simp only [okBind] at h
      cases hfr : readN V5.Frame.read pre.quantities.frames s1 with
      | error e => rw [hfr] at h; simp at h
      | ok fp =>
        obtain ⟨frames, s2⟩ := fp
        obtain ⟨hfe, _, _⟩ := readNV5FrameOk _ _ _ _ hfr
        rw [hfr] at h
        simp only [okBind] at h
        cases hpt : readN V2.Pos3.read pre.quantities.points s2 with
        | error e => rw [hpt] at h; simp at h
        | ok ptp =>
          obtain ⟨points, s3⟩ := ptp
          rw [hpt] at h
          simp only [okBind] at h
          cases hsl : readU32 s3 with
          | error e => rw [hsl] at h; simp at h
          | ok slp =>
            obtain ⟨len, s4⟩ := slp
            rw [hsl] at h
            simp only [okBind] at h
            cases hsh : readN V5.ShadowEdge.read len s4 with
            | error e => rw [hsh] at h; simp at h
            | ok shp =>
              obtain ⟨shadow, s5⟩ := shp
              obtain ⟨hse, _, _⟩ := readNV5ShadowOk _ _ _ _ hsh
              rw [hsh] at h
              simp only [okBind, Except.ok.injEq] at h
              injection h with h1 h2
              rw [← h1]
              simp [hfe, hse]
  · intro s pre s1 hpre hn
    unfold V5.Model.read
    rw [hpre]
    simp only [okBind]
    rw [hframes pre.quantities.frames s1 hn]
    rfl
  · intro s pre s1 points s2 len s3 hpre hz hpt hlen hne
    unfold V5.Model.read
    rw [hpre]
    simp only [okBind]
    rw [hz]
    simp only [readN, okBind]
    rw [hpt]
    simp only [okBind]
    rw [hlen]
    simp only [okBind]
    rw [hshadow len s3 hne]
    rfl

/-- Claim C9, witness: a concrete V5 stream whose established prefix
parses with frame quantity 1 aborts with the `unimplemented` outcome. -/
theorem c9_v5_unimplemented_regions_witness :
    V5.Model.read V5.c9Stream = .error .unimplemented :=
  c9_v5_unimplemented_regions.2.1 V5.c9Stream V5.c9Pre [] rfl (by decide)

theorem minTopLeft (x : XQ) : min ⊤ x = x := min_eq_right le_top

theorem maxBotLeft (x : XQ) : max ⊥ x = x := max_eq_right bot_le

theorem qxNeBot (q : ℚ) : qx q ≠ ⊥ := WithBot.coe_ne_bot

theorem aabbWithContainsSelf (b : Aabb) (p : Point3Q) : (b.with p).contains p := by
  unfold Aabb.with Aabb.contains
  exact ⟨min_le_right _ _, min_le_right _ _, min_le_right _ _,
    le_max_right _ _, le_max_right _ _, le_max_right _ _⟩

theorem aabbWithMono (b : Aabb) (p q : Point3Q) (h : b.contains q) :
    (b.with p).contains q := by
  obtain ⟨h1, h2, h3, h4, h5, h6⟩ := h
  exact ⟨le_trans (min_le_left _ _) h1, le_trans (min_le_left _ _) h2,
    le_trans (min_le_left _ _) h3, le_trans h4 (le_max_left _ _),
    le_trans h5 (le_max_left _ _), le_trans h6 (le_max_left _ _)⟩

theorem containsNeInfinite (b : Aabb) (p : Point3Q) (h : b.contains p) :
    b ≠ INFINITE_AABB := by
  intro he
  rw [he] at h
  simp only [Aabb.contains, INFINITE_AABB] at h
  exact qxNeBot p.x (le_bot_iff.mp h.2.2.2.1)

theorem updatesPreserveContains (ps : List Point3Q) :
    ∀ (st : ColliderBuilder) (q : Point3Q), st.aabb.contains q →
      ((st.updates ps).aabb).contains q := by
  induction ps with
  | nil => intro st q h; exact h
  | cons p ps ih =>
    intro st q h
    exact ih (st.update p) q (aabbWithMono st.aabb p q h)

theorem updatesContainsMem (ps : List Point3Q) :
    ∀ (st : ColliderBuilder) (q : Point3Q), q ∈ ps →
      ((st.updates ps).aabb).contains q := by
  induction ps with
  | nil => intro st q h; cases h
  | cons p ps ih =>
    intro st q h
    rcases List.mem_cons.mp h with h | h
    · subst h
      exact updatesPreserveContains ps (st.update q) q
        (aabbWithContainsSelf st.aabb q)
    · exact ih (st.update p) q h

theorem updatesRadius (ps : List Point3Q) :
    ∀ st : ColliderBuilder, (st.updates ps).radiusSquared =
      (ps.map (fun p => dist2 p st.center)).foldl max st.radiusSquared := by
  induction ps with
  | nil => intro st; rfl
  | cons p ps ih =>
    intro st
    simp only [ColliderBuilder.updates, List.foldl_cons, List.map_cons]
    exact ih (st.update p)

/-- Claim C8: after zero updates the builder yields radius 0 and the
defined zero-size box at the origin (not the sentinel); after one update
with the chosen center it yields radius 0 and a zero-size box at that
point; after the 8 unit-cube corners around the origin (center at the
origin) the radius — the square root of the accumulated squared maximum —
is `sqrt 3 / 2`. -/
theorem c8_collider_cases :
    (∀ c : Point3Q, (ColliderBuilder.begin c).build.aabb = Aabb.default ∧
       (ColliderBuilder.begin c).build.radiusSquared = 0 ∧
       Real.sqrt ((ColliderBuilder.begin c).build.radiusSquared : ℝ) = 0) ∧
    (∀ c : Point3Q, ((ColliderBuilder.begin c).update c).build.aabb =
         { lowerX := qx c.x, lowerY := qx c.y, lowerZ := qx c.z,
           upperX := qx c.x, upperY := qx c.y, upperZ := qx c.z } ∧
       Real.sqrt (((ColliderBuilder.begin c).update c).build.radiusSquared : ℝ) = 0) ∧
    Real.sqrt
        ((((ColliderBuilder.begin ⟨0, 0, 0⟩).updates cubeCorners).build.radiusSquared : ℚ) : ℝ) =
      Real.sqrt 3 / 2 := by
  refine ⟨?_, ?_, ?_⟩
  · intro c
    refine ⟨?_, rfl, ?_⟩
    · simp [ColliderBuilder.build, ColliderBuilder.begin]
    · simp [ColliderBuilder.build, ColliderBuilder.begin, Real.sqrt_zero]
  · intro c
    have hself : (INFINITE_AABB.with c).contains c := aabbWithContainsSelf _ _
    have hne : INFINITE_AABB.with c ≠ INFINITE_AABB := containsNeInfinite _ _ hself
    constructor
    · show (if INFINITE_AABB.with c = INFINITE_AABB then Aabb.default
            else INFINITE_AABB.with c) = _
      rw [if_neg hne]
      simp [Aabb.with, INFINITE_AABB, minTopLeft, maxBotLeft]
    · have hd : dist2 c c = 0 := by simp [dist2]
      show Real.sqrt ((max (0 : ℚ) (dist2 c c) : ℚ) : ℝ) = 0
      rw [hd]
      simp [Real.sqrt_zero]
  · have h34 : ((ColliderBuilder.begin ⟨0, 0, 0⟩).updates cubeCorners).build.radiusSquared
        = 3 / 4 := by
      show ((ColliderBuilder.begin ⟨0, 0, 0⟩).updates cubeCorners).radiusSquared = 3 / 4
      rw [updatesRadius]
      norm_num [cubeCorners, dist2, max_def, ColliderBuilder.begin]
    rw [h34]
    have hc : (((3 : ℚ) / 4 : ℚ) : ℝ) = 3 / 4 := by norm_num
    rw [hc, show (3 : ℝ) / 4 = 3 / 2 ^ 2 by norm_num,
      Real.sqrt_div (by norm_num) (2 ^ 2), Real.sqrt_sq (by norm_num)]

/-- Claim C10: for every center and every point sequence fed to the
builder, the built collider's AABB contains every observed point, and its
squared radius is the maximum over the observed points of the computed
squared distance to the center (0 when no point was observed), so the
radius is the square root of that maximum; being universally quantified
over the sequence, both properties persist under every further update. -/
theorem c10_collider_invariant (c : Point3Q) (ps : List Point3Q) :
    (∀ p ∈ ps, ((ColliderBuilder.begin c).updates ps).build.aabb.contains p) ∧
    ((ColliderBuilder.begin c).updates ps).build.radiusSquared =
      (ps.map (fun p => dist2 p c)).foldl max 0 ∧
    Real.sqrt ((((ColliderBuilder.begin c).updates ps).build.radiusSquared : ℚ) : ℝ) =
      Real.sqrt ((((ps.map (fun p => dist2 p c)).foldl max 0 : ℚ) : ℝ)) := by
  have hrad : ((ColliderBuilder.begin c).updates ps).build.radiusSquared =
      (ps.map (fun p => dist2 p c)).foldl max 0 := by
    have h := updatesRadius ps (ColliderBuilder.begin c)
    simpa [ColliderBuilder.begin, ColliderBuilder.build] using h
  refine ⟨?_, hrad, ?_⟩
  · intro p hp
    have hc := updatesContainsMem ps (ColliderBuilder.begin c) p hp
    have hne := containsNeInfinite _ _ hc
    simpa [ColliderBuilder.build, if_neg hne] using hc
  · rw [hrad]

/-- Claim C10, witness: one observed point lands in the built box and
yields squared radius 9. -/
theorem c10_collider_invariant_witness :
    ((ColliderBuilder.begin ⟨0, 0, 0⟩).updates [⟨1, 2, 2⟩]).build.aabb.contains
        ⟨1, 2, 2⟩ ∧
    ((ColliderBuilder.begin ⟨0, 0, 0⟩).updates [⟨1, 2, 2⟩]).build.radiusSquared = 9 := by
  have h := c10_collider_invariant ⟨0, 0, 0⟩ [⟨1, 2, 2⟩]
  refine ⟨h.1 ⟨1, 2, 2⟩ (List.mem_singleton.mpr rfl), ?_⟩
  rw [h.2.1]
  norm_num [dist2, max_def]

end Cem
